import Mathlib

/-!
Verification of the Interactive Table Extraction Pipeline of this
repository (src/scripts/scraper3.py, together with the hotkey capture
variant in src/scripts/scraper.py and the click capture variant in
src/scripts/scraper_tool.py).

The Python sources are shallowly embedded: pure control flow is
translated function by function, while the operator console and the
external collaborators (pandas, the Convex backend, the AI parsing
action, the browser) are modelled as explicit oracle values that the
embedded functions consume.  Observable actions (opening a page,
awaiting a capture, writing a debug artifact, handing records to the
persistence sink, offering the navigator menu) are recorded in an
event trace.
-/

set_option linter.unusedVariables false

namespace Scraper

/-- A pandas cell value: NaN (missing), a string, an integer, or a
boolean.  This is the value space the tiers operate on. -/
inductive Cell where
  | na
  | s (v : String)
  | n (v : Int)
  | b (v : Bool)
deriving DecidableEq, Repr

/-- One parsed row, as produced by DataFrame.to_dict with the records
orientation: an association list from column label to cell value.
AI results are also lists of rows of this shape. -/
abbrev Record := List (String × Cell)

/-! ## Capture future (scraper3.py lines 690 to 699, scraper_tool.py
lines 153 to 163)

The host side creates one asyncio future per page and exposes
on_selection as window.returnHTML.  A future is done exactly when it
holds a result. -/

/-- The pending capture future of one page session. -/
structure PyFuture where
  result : Option String
deriving DecidableEq, Repr

/-- future.done() -/
def PyFuture.done (f : PyFuture) : Bool := f.result.isSome

/-- The capture hook exposed to the in-page script:
if not future.done(): future.set_result(html_content). -/
def on_selection (f : PyFuture) (html_content : String) : PyFuture :=
  if f.done then f else { result := some html_content }

/-! ## Link Queue Navigator (scraper3.py lines 160 to 269)

Operator input lines arrive already stripped and lowercased, exactly
as the Python code normalises them before matching.  Python int on
such a line is modelled by String.toInt?. -/

/-- Result of handling one input line at a navigator prompt: quit the
session, go to a position, or reject the input and prompt again. -/
inductive NavStep where
  | quit
  | goto (i : Nat)
  | reprompt
deriving DecidableEq, Repr

/-- A decimal digit, as Python int accepts it. -/
def pyDigit (c : Char) : Option Nat :=
  if '0' ≤ c ∧ c ≤ '9' then some (c.toNat - '0'.toNat) else none

/-- Accumulate decimal digits; none as soon as a non-digit appears. -/
def pyDigitsAux : List Char → Nat → Option Nat
  | [], acc => some acc
  | c :: cs, acc =>
    match pyDigit c with
    | some d => pyDigitsAux cs (acc * 10 + d)
    | none => none

/-- A non-empty run of decimal digits read as a natural number. -/
def pyDigits : List Char → Option Nat
  | [] => none
  | cs => pyDigitsAux cs 0

/-- Python int(choice) on an already stripped menu line: an optional
sign followed by at least one decimal digit parses to an integer;
anything else raises ValueError, modelled as none. -/
def pyInt (choice : String) : Option Int :=
  match choice.toList with
  | '-' :: cs => (pyDigits cs).map (fun v => -(v : Int))
  | '+' :: cs => (pyDigits cs).map (fun v => (v : Int))
  | cs => (pyDigits cs).map (fun v => (v : Int))

/-- One round of get_user_selection (scraper3.py lines 160 to 204).
current is None before the first selection. -/
def get_user_selection_step (total : Nat) (current : Option Nat)
    (choice : String) : NavStep :=
  if choice = "q" then .quit
  else if choice = "l" then .reprompt
  else if choice = "n" then
    match current with
    | none => .goto 0
    | some c => if c < total - 1 then .goto (c + 1) else .reprompt
  else if choice = "p" then
    match current with
    | none => .reprompt
    | some c => if c = 0 then .reprompt else .goto (c - 1)
  else
    match pyInt choice with
    | some num =>
        if 1 ≤ num ∧ num ≤ (total : Int) then .goto (num - 1).toNat
        else .reprompt
    | none => .reprompt

/-- The while True loop of get_user_selection over a finite supply of
input lines: rejected inputs re-prompt with the position unchanged.
none means the supply ran out while still prompting. -/
def get_user_selection (total : Nat) (current : Option Nat) :
    List String → Option NavStep
  | [] => none
  | choice :: rest =>
    match get_user_selection_step total current choice with
    | .reprompt => get_user_selection total current rest
    | r => some r

/-- One round of get_post_scrape_action (scraper3.py lines 207 to 269).
The j option reads one further line, carried here as jump_line. -/
def get_post_scrape_action_step (total current : Nat)
    (choice jump_line : String) : NavStep :=
  if choice = "q" then .quit
  else if choice = "l" then .reprompt
  else if choice = "n" then
    if current < total - 1 then .goto (current + 1) else .reprompt
  else if choice = "p" then
    if 0 < current then .goto (current - 1) else .reprompt
  else if choice = "r" then .goto current
  else if choice = "j" then
    match pyInt jump_line with
    | some num =>
        if 1 ≤ num ∧ num ≤ (total : Int) then .goto (num - 1).toNat
        else .reprompt
    | none => .reprompt
  else
    match pyInt choice with
    | some num =>
        if 1 ≤ num ∧ num ≤ (total : Int) then .goto (num - 1).toNat
        else .reprompt
    | none => .reprompt

/-- The while True loop of get_post_scrape_action; each prompt round
consumes the menu line and, when the choice is j, the follow-up
number line. -/
def get_post_scrape_action (total current : Nat) :
    List (String × String) → Option NavStep
  | [] => none
  | (choice, jump_line) :: rest =>
    match get_post_scrape_action_step total current choice jump_line with
    | .reprompt => get_post_scrape_action total current rest
    | r => some r

/-- Any goto produced by one get_user_selection round stays inside
the queue bounds. -/
theorem get_user_selection_step_goto_lt (total : Nat) (current : Option Nat)
    (choice : String) (i : Nat) (ht : 1 ≤ total)
    (hc : ∀ c, current = some c → c < total)
    (h : get_user_selection_step total current choice = .goto i) :
    i < total := by
  unfold get_user_selection_step at h
  repeat' split at h
  all_goals simp_all
  all_goals omega

/-- Any goto produced by one get_post_scrape_action round stays inside
the queue bounds. -/
theorem get_post_scrape_action_step_goto_lt (total current : Nat)
    (choice jump_line : String) (i : Nat) (ht : 1 ≤ total)
    (hc : current < total)
    (h : get_post_scrape_action_step total current choice jump_line = .goto i) :
    i < total := by
  unfold get_post_scrape_action_step at h
  repeat' split at h
  all_goals simp_all
  all_goals omega

/-- Loop version for get_user_selection. -/
theorem get_user_selection_goto_lt (total : Nat) (current : Option Nat)
    (inputs : List String) (i : Nat) (ht : 1 ≤ total)
    (hc : ∀ c, current = some c → c < total)
    (h : get_user_selection total current inputs = some (.goto i)) :
    i < total := by
  induction inputs with
  | nil => simp [get_user_selection] at h
  | cons choice rest ih =>
    rw [get_user_selection] at h
    cases hs : get_user_selection_step total current choice with
    | quit => rw [hs] at h; simp at h
    | reprompt => rw [hs] at h; exact ih h
    | goto j =>
      rw [hs] at h
      simp at h
      subst h
      exact get_user_selection_step_goto_lt total current choice j ht hc hs

/-- Loop version for get_post_scrape_action. -/
theorem get_post_scrape_action_goto_lt (total current : Nat)
    (inputs : List (String × String)) (i : Nat) (ht : 1 ≤ total)
    (hc : current < total)
    (h : get_post_scrape_action total current inputs = some (.goto i)) :
    i < total := by
  induction inputs with
  | nil => simp [get_post_scrape_action] at h
  | cons pair rest ih =>
    obtain ⟨choice, jump_line⟩ := pair
    rw [get_post_scrape_action] at h
    cases hs : get_post_scrape_action_step total current choice jump_line with
    | quit => rw [hs] at h; simp at h
    | reprompt => rw [hs] at h; exact ih h
    | goto j =>
      rw [hs] at h
      simp at h
      subst h
      exact get_post_scrape_action_step_goto_lt total current choice jump_line
        j ht hc hs

/-- Claim C1: for every link collection of size N at least 1 and every
sequence of operator inputs, the Link Queue Navigator
(get_user_selection and get_post_scrape_action) only ever returns a
position in the range 0 to N-1; a next at the last position, a
previous at position 0 or at the undefined position, and an
out-of-range or malformed numeric jump are all rejected, leaving the
current position unchanged and re-prompting. -/
theorem c1_navigator_position_safe (total : Nat) (current : Option Nat)
    (cur : Nat) (ht : 1 ≤ total)
    (hc : ∀ c, current = some c → c < total) (hcur : cur < total) :
    (∀ inputs i, get_user_selection total current inputs = some (.goto i) →
       i < total) ∧
    (∀ inputs i, get_post_scrape_action total cur inputs = some (.goto i) →
       i < total) ∧
    get_user_selection_step total (some (total - 1)) "n" = .reprompt ∧
    get_user_selection_step total none "p" = .reprompt ∧
    get_user_selection_step total (some 0) "p" = .reprompt ∧
    get_post_scrape_action_step total (total - 1) "n" "" = .reprompt ∧
    get_post_scrape_action_step total 0 "p" "" = .reprompt ∧
    (∀ choice num, pyInt choice = some num →
       (num < 1 ∨ (total : Int) < num) →
       get_user_selection_step total current choice = .reprompt) ∧
    (∀ choice, pyInt choice = none → choice ≠ "q" → choice ≠ "l" →
       choice ≠ "n" → choice ≠ "p" →
       get_user_selection_step total current choice = .reprompt) ∧
    (∀ choice rest,
       get_user_selection_step total current choice = .reprompt →
       get_user_selection total current (choice :: rest) =
         get_user_selection total current rest) ∧
    (∀ choice jump_line rest,
       get_post_scrape_action_step total cur choice jump_line = .reprompt →
       get_post_scrape_action total cur ((choice, jump_line) :: rest) =
         get_post_scrape_action total cur rest) := by
  refine ⟨fun inputs i h => get_user_selection_goto_lt total current inputs
      i ht hc h,
    fun inputs i h => get_post_scrape_action_goto_lt total cur inputs
      i ht hcur h, ?_, ?_, ?_, ?_, ?_, ?_, ?_, ?_, ?_⟩
  · simp [get_user_selection_step]
  · simp [get_user_selection_step]
  · simp [get_user_selection_step]
  · simp [get_post_scrape_action_step]
  · simp [get_post_scrape_action_step]
  · intro choice num hp hrange
    have hq : ¬ choice = "q" := fun h => by
      subst h; rw [show pyInt "q" = none from rfl] at hp; cases hp
    have hl : ¬ choice = "l" := fun h => by
      subst h; rw [show pyInt "l" = none from rfl] at hp; cases hp
    have hn : ¬ choice = "n" := fun h => by
      subst h; rw [show pyInt "n" = none from rfl] at hp; cases hp
    have hpp : ¬ choice = "p" := fun h => by
      subst h; rw [show pyInt "p" = none from rfl] at hp; cases hp
    simp only [get_user_selection_step, if_neg hq, if_neg hl, if_neg hn,
      if_neg hpp, hp]
    rw [if_neg (by omega)]
  · intro choice hp hq hl hn hpp
    simp only [get_user_selection_step, if_neg hq, if_neg hl, if_neg hn,
      if_neg hpp, hp]
  · intro choice rest h
    rw [get_user_selection, h]
  · intro choice jump_line rest h
    rw [get_post_scrape_action, h]

/-- Concrete instance of the navigator safety theorem. -/
theorem c1_navigator_position_safe_witness :
    1 ≤ 2 ∧ get_user_selection_step 2 (some 1) "n" = NavStep.reprompt := by
  refine ⟨by decide, ?_⟩
  exact (c1_navigator_position_safe 2 (some 0) 1 (by decide)
    (by intro c h; injection h with h; omega) (by decide)).2.2.1

/-- Claim C2: for every page session, the capture hook on_selection
(exposed as window.returnHTML) resolves the pending capture future at
most once: a second invocation with any markup leaves the already
resolved value unchanged and has no observable effect. -/
theorem c2_capture_idempotent (f : PyFuture) (h1 h2 : String) :
    on_selection (on_selection f h1) h2 = on_selection f h1 ∧
    (on_selection { result := none } h1).result = some h1 ∧
    (on_selection (on_selection { result := none } h1) h2).result = some h1 := by
  obtain ⟨r⟩ := f
  cases r <;> simp [on_selection, PyFuture.done]

/-! ## Tabular parser model (pandas)

read_html, dropna, fillna, astype and to_dict from scraper3.py lines
835 to 872 (the same calls appear in manual_html_fallback, lines 508
to 541). -/

/-- A pandas DataFrame: column labels plus rows of cells. -/
structure DataFrame where
  cols : List String
  rows : List (List Cell)
deriving DecidableEq, Repr

/-- NaN test for one cell. -/
def Cell.isNa : Cell → Bool
  | .na => true
  | _ => false

/-- dropna with how set to all: drop rows whose cells are all NaN. -/
def dropAllNaRows (df : DataFrame) : DataFrame :=
  { df with rows := df.rows.filter (fun r => !(r.all Cell.isNa)) }

/-- dropna on axis 1 with how set to all: drop columns whose cells
are all NaN. -/
def dropAllNaCols (df : DataFrame) : DataFrame :=
  let keep := (List.range df.cols.length).filter
    (fun j => df.rows.any (fun r => !(r.getD j Cell.na).isNa))
  { cols := keep.map (fun j => df.cols.getD j ""),
    rows := df.rows.map (fun r => keep.map (fun j => r.getD j Cell.na)) }

/-- df.empty: some axis has length zero. -/
def DataFrame.isEmpty (df : DataFrame) : Bool :=
  df.rows.isEmpty || df.cols.isEmpty

/-- The chained cleanup: drop all-NaN rows, then all-NaN columns. -/
def cleanDf (df : DataFrame) : DataFrame := dropAllNaCols (dropAllNaRows df)

/-- fillna with the empty string, on one cell. -/
def fillNaCell : Cell → Cell
  | .na => .s ""
  | c => c

/-- str applied to one cell value, as astype does. -/
def cellStr : Cell → String
  | .s v => v
  | .n v => toString v
  | .b true => "True"
  | .b false => "False"
  | .na => "nan"

/-- astype with str on one cell. -/
def astypeStrCell (c : Cell) : Cell := .s (cellStr c)

/-- fillna with the empty string followed by astype str on every
column, as scraper3.py lines 857 to 859 do. -/
def normalizeDf (df : DataFrame) : DataFrame :=
  { df with
    rows := df.rows.map (fun r => r.map (fun c => astypeStrCell (fillNaCell c))) }

/-- to_dict with the records orientation. -/
def dfToRecords (df : DataFrame) : List Record :=
  df.rows.map (fun r => df.cols.zip r)

/-- Outcome of a pandas read_html call on some markup: a list of
detected tables, a ValueError (pandas also raises ValueError when no
table is found), or another exception. -/
inductive PdOutcome where
  | tables (dfs : List DataFrame)
  | valueError (msg : String)
  | otherExn (msg : String)
deriving DecidableEq, Repr

/-- Outcome of the remote AI action call
(htmlParsingActions:parseHtmlIntelligently): a response with success
flag, data rows and error text, or a raised exception. -/
inductive AiOutcome where
  | exn (msg : String)
  | resp (success : Bool) (data : List Record) (error : String)
deriving DecidableEq, Repr

/-- parse_with_ai_agent (scraper3.py lines 799 to 832): any exception
from the remote call is caught, logged, and yields None; a response
yields its data exactly when the success flag is set and the data
list is non-empty (Python truthiness), and the rows are returned
unchanged, with no normalization. -/
def parse_with_ai_agent : AiOutcome → Option (List Record)
  | .exn _ => none
  | .resp success data _ =>
      if success = true ∧ data ≠ [] then some data else none

/-- save_debug_html (scraper3.py lines 772 to 796): the name of the
written debug artifact.  md5hex models the hashlib.md5 hex digest;
the digest is taken of the source URL (empty when missing), and the
captured content plays no part in the name. -/
def save_debug_html (html_content : String) (source_url : Option String)
    (timestamp : String) (md5hex : String → String) : String :=
  "parse_failure_" ++ timestamp ++ "_"
    ++ (md5hex (source_url.getD "")).take 8 ++ ".html"

/-- Observable pipeline events, in the order they happen. -/
inductive Ev where
  | pageOpen
  | navigate (url : String)
  | navFailReported
  | pageClose
  | captureAwait
  | tierStructured
  | debugWrite (source_url : Option String) (html : String)
  | tierAI
  | tierManual (attempt : Nat)
  | sinkWrite (records : List Record) (stored : Option String)
  | menuPrompt (index : Nat)
deriving DecidableEq, Repr

/-- Oracle for one parse_html_to_records call: the pandas outcome on
the captured markup and the AI action outcome used on escalation. -/
structure ParseEnv where
  pd : PdOutcome
  ai : AiOutcome
deriving DecidableEq, Repr

/-- parse_html_to_records (scraper3.py lines 835 to 872): the
structured pandas tier; when pandas raises, finds no table, or the
first table is empty after cleaning, the capture is saved through
save_debug_html and the AI tier is invoked on the same markup.  The
trace records the tiers attempted and the debug write. -/
def parse_html_to_records (html_content : String)
    (source_url : Option String) (env : ParseEnv) :
    Option (List Record) × List Ev :=
  match env.pd with
  | .tables [] =>
      (parse_with_ai_agent env.ai,
       [.tierStructured, .debugWrite source_url html_content, .tierAI])
  | .tables (df :: _) =>
      let main_df := cleanDf df
      if main_df.isEmpty then
        (parse_with_ai_agent env.ai,
         [.tierStructured, .debugWrite source_url html_content, .tierAI])
      else
        (some (dfToRecords (normalizeDf main_df)), [.tierStructured])
  | .valueError _ =>
      (parse_with_ai_agent env.ai,
       [.tierStructured, .debugWrite source_url html_content, .tierAI])
  | .otherExn _ =>
      (parse_with_ai_agent env.ai,
       [.tierStructured, .debugWrite source_url html_content, .tierAI])

/-- The structured tier yields no usable rows exactly on these pandas
outcomes. -/
def structuredFails : PdOutcome → Bool
  | .tables [] => true
  | .tables (df :: _) => (cleanDf df).isEmpty
  | .valueError _ => true
  | .otherExn _ => true

/-- A cell of string type. -/
def Cell.isStr : Cell → Bool
  | .s _ => true
  | _ => false

/-- Every cell value of every record is string typed. -/
def allStringRecords (recs : List Record) : Bool :=
  recs.all (fun r => r.all (fun kv => kv.2.isStr))

/-- Members of a normalized row are string cells. -/
theorem mem_normalized_isStr (r : List Cell) (v : Cell)
    (h : v ∈ r.map (fun c => astypeStrCell (fillNaCell c))) :
    v.isStr = true := by
  simp only [List.mem_map] at h
  obtain ⟨c, -, rfl⟩ := h
  rfl

/-- Rows built from a normalized DataFrame carry only string cells. -/
theorem allStringRecords_normalize (df : DataFrame) :
    allStringRecords (dfToRecords (normalizeDf df)) = true := by
  rw [allStringRecords, List.all_eq_true]
  intro rec hrec
  rw [List.all_eq_true]
  intro kv hkv
  simp only [dfToRecords, normalizeDf, List.mem_map] at hrec
  obtain ⟨a, ⟨rr, hrr, ha⟩, hrec2⟩ := hrec
  obtain ⟨k, v⟩ := kv
  rw [← hrec2] at hkv
  have h2 := (List.of_mem_zip hkv).2
  rw [← ha] at h2
  exact mem_normalized_isStr rr v h2

/-- The trace of one parse_html_to_records call has exactly two
shapes: pandas success, or escalation to the AI tier. -/
theorem parse_trace_cases (html : String) (u : Option String)
    (env : ParseEnv) :
    (parse_html_to_records html u env).2 = [.tierStructured] ∨
    (parse_html_to_records html u env).2
      = [.tierStructured, .debugWrite u html, .tierAI] := by
  unfold parse_html_to_records
  rcases env with ⟨pd, ai⟩
  cases pd with
  | tables dfs =>
    cases dfs with
    | nil => right; rfl
    | cons df rest =>
      by_cases h : (cleanDf df).isEmpty = true
      · right; simp [h]
      · left; simp [h]
  | valueError m => right; rfl
  | otherExn m => right; rfl

/-- The AI tier is attempted exactly when the structured tier fails. -/
theorem tierAI_iff_structuredFails (html : String) (u : Option String)
    (env : ParseEnv) :
    (Ev.tierAI ∈ (parse_html_to_records html u env).2) ↔
      structuredFails env.pd = true := by
  unfold parse_html_to_records structuredFails
  rcases env with ⟨pd, ai⟩
  cases pd with
  | tables dfs =>
    cases dfs with
    | nil => simp
    | cons df rest =>
      by_cases h : (cleanDf df).isEmpty = true
      · simp [h]
      · simp [h]
  | valueError m => simp
  | otherExn m => simp

/-- On pandas success the result rows are the normalized rows. -/
theorem parse_no_ai_normalized (html : String) (u : Option String)
    (env : ParseEnv) (recs : List Record) (tr : List Ev)
    (h : parse_html_to_records html u env = (some recs, tr))
    (hai : Ev.tierAI ∉ tr) :
    allStringRecords recs = true := by
  unfold parse_html_to_records at h
  rcases env with ⟨pd, ai⟩
  cases pd with
  | tables dfs =>
    cases dfs with
    | nil => simp at h; obtain ⟨-, h2⟩ := h; subst h2; simp at hai
    | cons df rest =>
      by_cases he : (cleanDf df).isEmpty = true
      · simp [he] at h; obtain ⟨-, h2⟩ := h; subst h2; simp at hai
      · simp [he] at h
        obtain ⟨h1, -⟩ := h
        rw [← h1]
        exact allStringRecords_normalize _
  | valueError m => simp at h; obtain ⟨-, h2⟩ := h; subst h2; simp at hai
  | otherExn m => simp at h; obtain ⟨-, h2⟩ := h; subst h2; simp at hai

/-! ## Manual paste fallback (scraper3.py lines 444 to 596)

Each loop iteration is driven by one ManualAttempt oracle value.  The
Python code wraps its own call to parse_with_ai_agent in a second
except handler, but parse_with_ai_agent already catches every
exception of the remote call itself (and the Convex client is always
initialized before any fallback runs, since main fetches the link
list first), so that handler never appends a second reason; the
embedding therefore lets parse_with_ai_agent return an Option and has
exactly one reason recorded per failed attempt, as the code does. -/

/-- Oracle for one manual input attempt: the pasted text (none when
the operator skips or cancels the paste), the pandas outcome on that
text, the AI action outcome used on a pandas ValueError, the answer
to the preview confirmation, and the answer to the try-again
prompt. -/
structure ManualAttempt where
  input : Option String
  pd : PdOutcome
  ai : AiOutcome
  confirm : Bool
  retry : Bool
deriving Repr

/-- The reason line recorded for one failed attempt. -/
def attemptMsg (attempt : Nat) (msg : String) : String :=
  "Attempt " ++ toString attempt ++ ": " ++ msg

/-- How one loop iteration of manual_html_fallback ends: an early
return carrying the result and, for the exhausted-break path, the
surfaced summary; or a continue into the next attempt with the grown
reason list. -/
inductive ManualStep where
  | finish (result : Option (List Record)) (summary : Option (List String))
  | again (errors : List String)
deriving Repr

/-- One iteration of the attempt loop (scraper3.py lines 496 to 586).
isNotLast is the attempt < max_retries test guarding the try-again
prompt; a break on a no answer surfaces the summary (lines 588 to
596), a skip returns None with no summary (line 505), a confirmed
preview or an AI rescue returns the rows (lines 550 and 566 to
568). -/
def manual_attempt_step (a : ManualAttempt) (attempt : Nat)
    (isNotLast : Bool) (errors : List String) : ManualStep :=
  match a.input with
  | none => .finish none none
  | some _ =>
    match a.pd with
    | .tables [] =>
      if isNotLast = true ∧ a.retry = false then
        .finish none
          (some (errors ++ [attemptMsg attempt "No HTML tables found in pasted content"]))
      else .again (errors ++ [attemptMsg attempt "No HTML tables found in pasted content"])
    | .tables (df :: _) =>
      if (cleanDf df).isEmpty then
        if isNotLast = true ∧ a.retry = false then
          .finish none
            (some (errors ++ [attemptMsg attempt "Table is empty after cleaning"]))
        else .again (errors ++ [attemptMsg attempt "Table is empty after cleaning"])
      else
        if a.confirm then
          .finish (some (dfToRecords (normalizeDf (cleanDf df)))) none
        else .again (errors ++ [attemptMsg attempt "User rejected parsed data"])
    | .valueError msg =>
      match parse_with_ai_agent a.ai with
      | some result => .finish (some result) none
      | none =>
        if isNotLast = true ∧ a.retry = false then
          .finish none
            (some (errors ++ [attemptMsg attempt ("pandas parsing error: " ++ msg)]))
        else .again (errors ++ [attemptMsg attempt ("pandas parsing error: " ++ msg)])
    | .otherExn msg =>
      if isNotLast = true ∧ a.retry = false then
        .finish none
          (some (errors ++ [attemptMsg attempt ("Unexpected error: " ++ msg)]))
      else .again (errors ++ [attemptMsg attempt ("Unexpected error: " ++ msg)])

/-- Prepend one consumed attempt to a fallback outcome. -/
def consAttempt (x : Option (List Record) × Option (List String) × Nat) :
    Option (List Record) × Option (List String) × Nat :=
  (x.1, x.2.1, x.2.2 + 1)

/-- The for loop of manual_html_fallback: attempt is the 1-indexed
loop counter, remaining the attempts left (the loop body sees
attempt < max_retries exactly when remaining exceeds one), errors the
reasons recorded so far.  The value carries the parsed rows (none on
failure), the surfaced summary (none when the function returned
early), and the number of attempts consumed. -/
def manualGo (oracle : Nat → ManualAttempt) :
    Nat → Nat → List String →
    Option (List Record) × Option (List String) × Nat
  | _, 0, errors => (none, some errors, 0)
  | attempt, remaining + 1, errors =>
    match manual_attempt_step (oracle attempt) attempt (remaining != 0) errors with
    | .finish res summ => (res, summ, 1)
    | .again errs => consAttempt (manualGo oracle (attempt + 1) remaining errs)

/-- manual_html_fallback (scraper3.py lines 492 to 596), with the
attempt outcomes supplied by an oracle indexed by attempt number. -/
def manual_html_fallback (oracle : Nat → ManualAttempt)
    (max_retries : Nat) :
    Option (List Record) × Option (List String) × Nat :=
  manualGo oracle 1 max_retries []

/-- A continue always grows the reason list by exactly one entry. -/
theorem manual_attempt_step_again_len (a : ManualAttempt) (attempt : Nat)
    (isNotLast : Bool) (errors errs : List String)
    (h : manual_attempt_step a attempt isNotLast errors = .again errs) :
    errs.length = errors.length + 1 := by
  unfold manual_attempt_step at h
  repeat' split at h
  all_goals cases h
  all_goals simp

/-- A finish that surfaces a summary is a failure and its summary
holds exactly one more reason than were already recorded. -/
theorem manual_attempt_step_finish_some (a : ManualAttempt) (attempt : Nat)
    (isNotLast : Bool) (errors l : List String)
    (res : Option (List Record))
    (h : manual_attempt_step a attempt isNotLast errors = .finish res (some l)) :
    res = none ∧ l.length = errors.length + 1 := by
  unfold manual_attempt_step at h
  repeat' split at h
  all_goals cases h
  all_goals exact ⟨rfl, by simp⟩

/-- A finish that carries rows got them either from the confirmed
normalized paste or unchanged from the AI call. -/
theorem manual_attempt_step_finish_rows (a : ManualAttempt) (attempt : Nat)
    (isNotLast : Bool) (errors : List String) (recs : List Record)
    (summ : Option (List String))
    (h : manual_attempt_step a attempt isNotLast errors
      = .finish (some recs) summ) :
    allStringRecords recs = true ∨ parse_with_ai_agent a.ai = some recs := by
  unfold manual_attempt_step at h
  repeat' split at h
  all_goals cases h
  all_goals first
    | (left; exact allStringRecords_normalize _)
    | (right; assumption)

/-- Loop invariant of the manual fallback: at most remaining attempts
are consumed, and whenever a summary is surfaced the result is a
failure and the summary holds exactly one recorded reason per
consumed attempt (on top of those already recorded). -/
theorem manualGo_spec (oracle : Nat → ManualAttempt) :
    ∀ remaining attempt errors,
      (manualGo oracle attempt remaining errors).2.2 ≤ remaining ∧
      ∀ l, (manualGo oracle attempt remaining errors).2.1 = some l →
        (manualGo oracle attempt remaining errors).1 = none ∧
        l.length = errors.length + (manualGo oracle attempt remaining errors).2.2 := by
  intro remaining
  induction remaining with
  | zero =>
    intro attempt errors
    refine ⟨by simp [manualGo], ?_⟩
    intro l hl
    simp only [manualGo] at hl ⊢
    obtain rfl := Option.some.inj hl
    simp
  | succ r ih =>
    intro attempt errors
    rw [manualGo]
    cases hs : manual_attempt_step (oracle attempt) attempt (r != 0) errors with
    | finish res summ =>
      dsimp only
      refine ⟨by omega, ?_⟩
      intro l hl
      obtain rfl : summ = some l := hl
      obtain ⟨h1, h2⟩ := manual_attempt_step_finish_some (oracle attempt)
        attempt (r != 0) errors l res hs
      exact ⟨h1, h2⟩
    | again errs =>
      dsimp only
      obtain ⟨ih1, ih2⟩ := ih (attempt + 1) errs
      have hlen := manual_attempt_step_again_len (oracle attempt) attempt
        (r != 0) errors errs hs
      refine ⟨by simp only [consAttempt]; omega, ?_⟩
      intro l hl
      simp only [consAttempt] at hl ⊢
      obtain ⟨h1, h2⟩ := ih2 l hl
      exact ⟨h1, by omega⟩

/-- Whenever the manual fallback returns rows, they are either the
normalized confirmed paste or the unchanged output of the AI call of
one of the attempts. -/
theorem manualGo_rows (oracle : Nat → ManualAttempt) :
    ∀ remaining attempt errors recs,
      (manualGo oracle attempt remaining errors).1 = some recs →
      allStringRecords recs = true ∨
        ∃ k, parse_with_ai_agent (oracle k).ai = some recs := by
  intro remaining
  induction remaining with
  | zero => intro attempt errors recs h; simp [manualGo] at h
  | succ r ih =>
    intro attempt errors recs h
    rw [manualGo] at h
    cases hs : manual_attempt_step (oracle attempt) attempt (r != 0) errors with
    | finish res summ =>
      rw [hs] at h
      simp only at h
      subst h
      rcases manual_attempt_step_finish_rows (oracle attempt) attempt
        (r != 0) errors recs summ hs with h1 | h1
      · exact Or.inl h1
      · exact Or.inr ⟨attempt, h1⟩
    | again errs =>
      rw [hs] at h
      simp only [consAttempt] at h
      exact ih (attempt + 1) errs recs h

/-- One failing-and-continuing attempt makes the loop recurse with
exactly one more recorded reason. -/
theorem manualGo_fail_step (oracle : Nat → ManualAttempt)
    (attempt r : Nat) (errors : List String)
    (hf : ∀ res summ, manual_attempt_step (oracle attempt) attempt
      (r != 0) errors ≠ .finish res summ) :
    ∃ errs, manual_attempt_step (oracle attempt) attempt (r != 0) errors
        = .again errs ∧
      errs.length = errors.length + 1 ∧
      manualGo oracle attempt (r + 1) errors
        = consAttempt (manualGo oracle (attempt + 1) r errs) := by
  cases hs : manual_attempt_step (oracle attempt) attempt (r != 0) errors with
  | finish res summ => exact absurd hs (hf res summ)
  | again errs =>
    refine ⟨errs, rfl, manual_attempt_step_again_len _ _ _ _ _ hs, ?_⟩
    rw [manualGo, hs]

/-- This manual attempt ends in a recorded failure or rejection:
the operator neither skipped nor got a confirmed or rescued parse. -/
def attemptFails (a : ManualAttempt) : Bool :=
  a.input.isSome &&
    (match a.pd with
     | .tables [] => true
     | .tables (df :: _) =>
         if (cleanDf df).isEmpty then true else !a.confirm
     | .valueError _ => (parse_with_ai_agent a.ai).isNone
     | .otherExn _ => true)

/-- After this failed attempt the loop continues: a rejected preview
always does, the other failures when the try-again answer is yes. -/
def attemptContinues (a : ManualAttempt) : Bool :=
  match a.pd with
  | .tables (df :: _) => if (cleanDf df).isEmpty then a.retry else true
  | _ => a.retry

/-- A failing attempt whose operator keeps going never ends the
loop early. -/
theorem attemptFails_no_finish (a : ManualAttempt) (attempt : Nat)
    (isNotLast : Bool) (errors : List String)
    (hf : attemptFails a = true)
    (hc : isNotLast = true → attemptContinues a = true) :
    ∀ res summ, manual_attempt_step a attempt isNotLast errors
      ≠ .finish res summ := by
  intro res summ h
  obtain ⟨inp, pd, ai, confirm, retry⟩ := a
  cases inp with
  | none => simp [attemptFails] at hf
  | some s =>
    cases pd with
    | tables dfs =>
      cases dfs with
      | nil =>
        have hr : isNotLast = true → retry = true := by
          intro hnl
          simpa [attemptContinues] using hc hnl
        simp only [manual_attempt_step] at h
        split at h
        · rename_i hcond
          rw [hr hcond.1] at hcond
          exact absurd hcond.2 (by simp)
        · cases h
      | cons df rest =>
        by_cases he : (cleanDf df).isEmpty = true
        · have hr : isNotLast = true → retry = true := by
            intro hnl
            simpa [attemptContinues, he] using hc hnl
          simp only [manual_attempt_step, if_pos he] at h
          split at h
          · rename_i hcond
            rw [hr hcond.1] at hcond
            exact absurd hcond.2 (by simp)
          · cases h
        · have hcf : confirm = false := by
            simpa [attemptFails, he] using hf
          simp only [manual_attempt_step, if_neg he, hcf] at h
          simp at h
    | valueError m =>
      have hai : parse_with_ai_agent ai = none := by
        simpa [attemptFails, Option.isNone_iff_eq_none] using hf
      have hr : isNotLast = true → retry = true := by
        intro hnl
        simpa [attemptContinues] using hc hnl
      simp only [manual_attempt_step, hai] at h
      split at h
      · rename_i hcond
        rw [hr hcond.1] at hcond
        exact absurd hcond.2 (by simp)
      · cases h
    | otherExn m =>
      have hr : isNotLast = true → retry = true := by
        intro hnl
        simpa [attemptContinues] using hc hnl
      simp only [manual_attempt_step] at h
      split at h
      · rename_i hcond
        rw [hr hcond.1] at hcond
        exact absurd hcond.2 (by simp)
      · cases h

/-- Claim C3: with max_retries set to 3 the operator is given at most
3 attempts; whenever the fallback surfaces its itemized summary it
has failed (returns None) and the summary holds exactly one recorded
reason per consumed attempt, hence at most 3; and when all 3 attempts
fail or are rejected (the operator continuing at the try-again
prompts) it returns None with exactly 3 recorded reasons. -/
theorem c3_manual_fallback_bounded (oracle : Nat → ManualAttempt) :
    (manual_html_fallback oracle 3).2.2 ≤ 3 ∧
    (∀ l, (manual_html_fallback oracle 3).2.1 = some l →
       (manual_html_fallback oracle 3).1 = none ∧
       l.length = (manual_html_fallback oracle 3).2.2 ∧ l.length ≤ 3) ∧
    ((∀ k, 1 ≤ k → k ≤ 3 → attemptFails (oracle k) = true) →
     (∀ k, 1 ≤ k → k < 3 → attemptContinues (oracle k) = true) →
     (manual_html_fallback oracle 3).1 = none ∧
       ∃ l, (manual_html_fallback oracle 3).2.1 = some l ∧ l.length = 3) := by
  obtain ⟨hle, hsum⟩ := manualGo_spec oracle 3 1 []
  refine ⟨hle, ?_, ?_⟩
  · intro l hl
    obtain ⟨h1, h2⟩ := hsum l hl
    simp only [List.length_nil, Nat.zero_add] at h2
    exact ⟨h1, h2, by omega⟩
  · intro hf hc
    obtain ⟨e1, hs1, hl1, he1⟩ := manualGo_fail_step oracle 1 2 []
      (attemptFails_no_finish (oracle 1) 1 (2 != 0) []
        (hf 1 (by omega) (by omega)) (fun _ => hc 1 (by omega) (by omega)))
    obtain ⟨e2, hs2, hl2, he2⟩ := manualGo_fail_step oracle 2 1 e1
      (attemptFails_no_finish (oracle 2) 2 (1 != 0) e1
        (hf 2 (by omega) (by omega)) (fun _ => hc 2 (by omega) (by omega)))
    obtain ⟨e3, hs3, hl3, he3⟩ := manualGo_fail_step oracle 3 0 e2
      (attemptFails_no_finish (oracle 3) 3 (0 != 0) e2
        (hf 3 (by omega) (by omega)) (fun h => by cases h))
    have k1 : manualGo oracle 1 3 [] = consAttempt (manualGo oracle 2 2 e1) := he1
    have k2 : manualGo oracle 2 2 e1 = consAttempt (manualGo oracle 3 1 e2) := he2
    have k3 : manualGo oracle 3 1 e2 = consAttempt (manualGo oracle 4 0 e3) := he3
    have key : manual_html_fallback oracle 3
        = consAttempt (consAttempt (consAttempt (manualGo oracle 4 0 e3))) := by
      rw [manual_html_fallback, k1, k2, k3]
    rw [key]
    have hbase : manualGo oracle 4 0 e3 = (none, some e3, 0) := rfl
    rw [hbase]
    dsimp only [consAttempt]
    refine ⟨rfl, e3, rfl, ?_⟩
    simp only [List.length_nil] at hl1
    omega

/-- Concrete instance: three rejected previews surface exactly three
reasons and a failed result. -/
theorem c3_manual_fallback_bounded_witness :
    (manual_html_fallback (fun _ =>
        ⟨some "<table><tr><td>x</td></tr></table>",
         .tables [⟨["A"], [[Cell.s "x"]]⟩], .resp false [] "", false, true⟩)
      3).1 = none := by
  refine ((c3_manual_fallback_bounded (fun _ =>
      ⟨some "<table><tr><td>x</td></tr></table>",
       .tables [⟨["A"], [[Cell.s "x"]]⟩], .resp false [] "", false, true⟩)).2.2
    ?_ ?_).1
  · intro k h1 h2; rfl
  · intro k h1 h2; rfl

/-- Claim C5 as stated is false on the code: when the structured tier
fails and the AI tier succeeds, the AI rows are handed onward exactly
as the service returned them, with no string normalization, so a
numeric cell reaches the persistence payload. -/
theorem c5_ai_rows_not_normalized_cex :
    (parse_html_to_records "<div>x</div>" (some "https://example.org")
       ⟨.valueError "No tables found", .resp true [[("Amount", .n 100)]] ""⟩).1
      = some [[("Amount", Cell.n 100)]] ∧
    allStringRecords [[("Amount", Cell.n 100)]] = false := by
  constructor <;> rfl

/-- Claim C5 amended: the structured tier and the pandas path of the
manual tier normalize every cell to a string (missing cells becoming
the empty string), but rows produced by the AI tier, in either the
automatic escalation or the manual tier ValueError rescue, are handed
onward exactly as the service returned them, without normalization. -/
theorem c5_normalization_amended (html : String) (u : Option String)
    (env : ParseEnv) (oracle : Nat → ManualAttempt) (max_retries : Nat)
    (recs mrecs data : List Record) (tr : List Ev) (e : String) :
    (parse_html_to_records html u env = (some recs, tr) →
       Ev.tierAI ∉ tr → allStringRecords recs = true) ∧
    astypeStrCell (fillNaCell .na) = .s "" ∧
    ((manual_html_fallback oracle max_retries).1 = some mrecs →
       allStringRecords mrecs = true ∨
         ∃ k, parse_with_ai_agent (oracle k).ai = some mrecs) ∧
    (data ≠ [] → parse_with_ai_agent (.resp true data e) = some data) := by
  refine ⟨fun h hai => parse_no_ai_normalized html u env recs tr h hai,
    rfl, fun h => manualGo_rows oracle max_retries 1 [] mrecs h, ?_⟩
  intro hd
  simp [parse_with_ai_agent, hd]

/-- Concrete instance of the amended normalization statement. -/
theorem c5_normalization_amended_witness :
    allStringRecords [[("A", Cell.s "x")]] = true ∧
    parse_with_ai_agent (.resp true [[("B", Cell.s "y")]] "")
      = some [[("B", Cell.s "y")]] := by
  have h := c5_normalization_amended "<table>t</table>" none
    ⟨.tables [⟨["A"], [[Cell.s "x"]]⟩], .resp false [] ""⟩
    (fun _ => ⟨none, .valueError "", .resp false [] "", false, false⟩) 3
    [[("A", Cell.s "x")]] [] [[("B", Cell.s "y")]] [Ev.tierStructured] ""
  exact ⟨h.1 rfl (by decide), h.2.2.2 (by decide)⟩

/-- Claim C6 as stated is false on the code: the debug artifact is
written as soon as the structured tier fails, before the AI tier
runs, so a capture whose AI tier succeeds still gets a debug file;
moreover the filename hash is taken from the source URL, not from the
content, so two different captures of one URL at one timestamp share
their key. -/
theorem c6_debug_written_despite_ai_success_cex :
    (Ev.debugWrite (some "https://example.org") "<div>x</div>" ∈
       (parse_html_to_records "<div>x</div>" (some "https://example.org")
         ⟨.valueError "No tables found",
          .resp true [[("Amount", .s "100")]] ""⟩).2) ∧
    (parse_html_to_records "<div>x</div>" (some "https://example.org")
       ⟨.valueError "No tables found",
        .resp true [[("Amount", .s "100")]] ""⟩).1
      = some [[("Amount", Cell.s "100")]] ∧
    save_debug_html "<div>x</div>" (some "https://example.org")
        "20240101_000000" (fun _ => "0123456789abcdef")
      = save_debug_html "<table>y</table>" (some "https://example.org")
        "20240101_000000" (fun _ => "0123456789abcdef") := by
  refine ⟨?_, rfl, rfl⟩
  simp [parse_html_to_records]

/-- Claim C6 amended: the debug artifact is written exactly when the
structured tier fails, immediately before the AI tier is invoked and
regardless of whether the AI tier then succeeds; its filename key
combines the timestamp with the first 8 characters of the md5 digest
of the source URL and does not depend on the captured content. -/
theorem c6_debug_artifact_amended (html : String) (u : Option String)
    (env : ParseEnv) (ts : String) (md5hex : String → String)
    (c1 c2 : String) :
    ((Ev.debugWrite u html ∈ (parse_html_to_records html u env).2) ↔
       structuredFails env.pd = true) ∧
    ((parse_html_to_records html u env).2
        = [.tierStructured, .debugWrite u html, .tierAI] ∨
      (parse_html_to_records html u env).2 = [.tierStructured]) ∧
    save_debug_html c1 u ts md5hex = save_debug_html c2 u ts md5hex := by
  refine ⟨?_, (parse_trace_cases html u env).symm, rfl⟩
  unfold parse_html_to_records structuredFails
  rcases env with ⟨pd, ai⟩
  cases pd with
  | tables dfs =>
    cases dfs with
    | nil => simp
    | cons df rest =>
      by_cases h : (cleanDf df).isEmpty = true
      · simp [h]
      · simp [h]
  | valueError m => simp
  | otherExn m => simp

/-- Concrete instance of the amended debug artifact statement. -/
theorem c6_debug_artifact_amended_witness :
    structuredFails (PdOutcome.valueError "No tables found") = true ∧
    Ev.debugWrite (some "u") "<p>x</p>" ∈
      (parse_html_to_records "<p>x</p>" (some "u")
        ⟨.valueError "No tables found", .resp false [] ""⟩).2 := by
  refine ⟨rfl, ?_⟩
  exact (c6_debug_artifact_amended "<p>x</p>" (some "u")
    ⟨.valueError "No tables found", .resp false [] ""⟩ "ts"
    (fun _ => "h") "c" "c").1.mpr rfl

/-! ## Link processing (scraper3.py lines 599 to 769) and the main
loop (scraper3.py lines 937 to 947) -/

/-- A link object fetched from the link source: its identifier, its
jurisdiction label, and its URL (missing when the record has no
procurementLink key). -/
structure LinkObj where
  _id : String
  state : String
  procurementLink : Option String
deriving DecidableEq, Repr

/-- url = link_obj.get of procurementLink; the guard if not url
treats a missing key and an empty string alike. -/
def urlOf (link : LinkObj) : Option String :=
  match link.procurementLink with
  | none => none
  | some u => if u = "" then none else some u

/-- Python truthiness of an optional row list, as the checks
if parsed_data use it. -/
def pyTruthyList (r : Option (List Record)) : Bool :=
  match r with
  | none => false
  | some l => !l.isEmpty

/-- Outcome of the Convex mutation behind the persistence write. -/
inductive SinkOutcome where
  | ok (id : String)
  | exn (msg : String)
deriving DecidableEq, Repr

/-- save_procurement_data_to_convex (scraper3.py lines 121 to 141):
an exception in the remote mutation is caught and logged and the
function returns None; otherwise the created identifier is returned.
The records themselves are sent as computed and never modified. -/
def save_procurement_data_to_convex (link : LinkObj)
    (parsed_data : List Record) (outcome : SinkOutcome) : Option String :=
  match outcome with
  | .ok id => some id
  | .exn _ => none

/-- Oracle for one process_link call: whether navigation succeeded,
the operator skip answer at the verification checkpoint, whether
expose_function and the selector injection succeeded, the capture
outcome (the awaited future yields the markup, or the await raises),
the parse oracle, the sink outcome for the automatic path, the
manual-paste opt-in answer, the manual attempt oracle, and the sink
outcome for the manual path. -/
structure ProcessOracle where
  navOk : Bool
  skip : Bool
  exposeOk : Bool
  injectOk : Bool
  capture : Except String String
  parseEnv : ParseEnv
  sink : SinkOutcome
  manualChoice : Bool
  manualOracle : Nat → ManualAttempt
  manualSink : SinkOutcome

/-- One tierManual event per attempt the manual fallback consumed. -/
def manualEvents (attempts : Nat) : List Ev :=
  (List.range attempts).map (fun j => .tierManual (j + 1))

/-- process_link (scraper3.py lines 599 to 769): reject a missing or
empty URL before any page is opened; open a fresh page and navigate
(closing the page and failing on a navigation error, an operator
skip, an expose failure or an injection failure); await the capture;
parse it with the tiered parser; on usable rows, hand them to the
sink and succeed; otherwise, or when the await raised, offer the
manual paste fallback, handing its rows to the sink on success. -/
def process_link (link : LinkObj) (o : ProcessOracle) : Bool × List Ev :=
  match urlOf link with
  | none => (false, [])
  | some url =>
    if o.navOk = false then
      (false, [.pageOpen, .navigate url, .navFailReported, .pageClose])
    else if o.skip = true then
      (false, [.pageOpen, .navigate url, .pageClose])
    else if o.exposeOk = false then
      (false, [.pageOpen, .navigate url, .pageClose])
    else if o.injectOk = false then
      (false, [.pageOpen, .navigate url, .pageClose])
    else
      match o.capture with
      | .ok html =>
        if pyTruthyList (parse_html_to_records html (some url) o.parseEnv).1 then
          (true, [.pageOpen, .navigate url, .captureAwait]
            ++ (parse_html_to_records html (some url) o.parseEnv).2
            ++ [.sinkWrite
                  ((parse_html_to_records html (some url) o.parseEnv).1.getD [])
                  (save_procurement_data_to_convex link
                    ((parse_html_to_records html (some url) o.parseEnv).1.getD [])
                    o.sink),
                .pageClose])
        else if o.manualChoice = true then
          if pyTruthyList (manual_html_fallback o.manualOracle 3).1 then
            (true, [.pageOpen, .navigate url, .captureAwait]
              ++ (parse_html_to_records html (some url) o.parseEnv).2
              ++ manualEvents (manual_html_fallback o.manualOracle 3).2.2
              ++ [.sinkWrite
                    ((manual_html_fallback o.manualOracle 3).1.getD [])
                    (save_procurement_data_to_convex link
                      ((manual_html_fallback o.manualOracle 3).1.getD [])
                      o.manualSink),
                  .pageClose])
          else
            (false, [.pageOpen, .navigate url, .captureAwait]
              ++ (parse_html_to_records html (some url) o.parseEnv).2
              ++ manualEvents (manual_html_fallback o.manualOracle 3).2.2
              ++ [.pageClose])
        else
          (false, [.pageOpen, .navigate url, .captureAwait]
            ++ (parse_html_to_records html (some url) o.parseEnv).2
            ++ [.pageClose])
      | .error _ =>
        if o.manualChoice = true then
          if pyTruthyList (manual_html_fallback o.manualOracle 3).1 then
            (true, [.pageOpen, .navigate url, .captureAwait]
              ++ manualEvents (manual_html_fallback o.manualOracle 3).2.2
              ++ [.sinkWrite
                    ((manual_html_fallback o.manualOracle 3).1.getD [])
                    (save_procurement_data_to_convex link
                      ((manual_html_fallback o.manualOracle 3).1.getD [])
                      o.manualSink),
                  .pageClose])
          else
            (false, [.pageOpen, .navigate url, .captureAwait]
              ++ manualEvents (manual_html_fallback o.manualOracle 3).2.2
              ++ [.pageClose])
        else
          (false, [.pageOpen, .navigate url, .captureAwait, .pageClose])

/-- One iteration of the main loop (scraper3.py lines 937 to 941):
process the link at the current position, then offer the post-scrape
navigator menu at the unchanged current position. -/
def main_loop_iter (links : List LinkObj) (current_index : Nat)
    (o : ProcessOracle) : Bool × List Ev :=
  ((process_link (links.getD current_index ⟨"", "", none⟩) o).1,
   (process_link (links.getD current_index ⟨"", "", none⟩) o).2
     ++ [.menuPrompt current_index])

/-- tierManual k appears among the attempt events exactly for the
consumed attempt numbers. -/
theorem mem_manualEvents (k n : Nat) :
    Ev.tierManual k ∈ manualEvents n ↔ 1 ≤ k ∧ k ≤ n := by
  unfold manualEvents
  simp only [List.mem_map, List.mem_range, Ev.tierManual.injEq]
  constructor
  · rintro ⟨j, hj, rfl⟩
    omega
  · rintro ⟨h1, h2⟩
    exact ⟨k - 1, by omega, by omega⟩

/-- The tiered parser emits no manual attempt events. -/
theorem parse_trace_no_manual (html : String) (u : Option String)
    (env : ParseEnv) (k : Nat) :
    Ev.tierManual k ∉ (parse_html_to_records html u env).2 := by
  rcases parse_trace_cases html u env with h | h <;> rw [h] <;> simp

/-- The structured tier runs exactly once per capture. -/
theorem parse_trace_count_structured (html : String) (u : Option String)
    (env : ParseEnv) :
    (parse_html_to_records html u env).2.count Ev.tierStructured = 1 := by
  rcases parse_trace_cases html u env with h | h <;> rw [h] <;>
    simp [List.count_cons]

/-- The AI tier runs at most once per capture. -/
theorem parse_trace_count_ai_le (html : String) (u : Option String)
    (env : ParseEnv) :
    (parse_html_to_records html u env).2.count Ev.tierAI ≤ 1 := by
  rcases parse_trace_cases html u env with h | h <;> rw [h] <;>
    simp [List.count_cons]

/-- Every manual attempt event of one link carries an attempt number
between 1 and 3. -/
theorem process_link_manual_bound (link : LinkObj) (o : ProcessOracle)
    (k : Nat) (h : Ev.tierManual k ∈ (process_link link o).2) :
    1 ≤ k ∧ k ≤ 3 := by
  have hb : (manual_html_fallback o.manualOracle 3).2.2 ≤ 3 :=
    (manualGo_spec o.manualOracle 3 1 []).1
  unfold process_link at h
  cases hu : urlOf link with
  | none => rw [hu] at h; simp at h
  | some url =>
    rw [hu] at h
    repeat' split at h
    all_goals
      simp only [List.mem_append] at h
    all_goals
      simp [parse_trace_no_manual, mem_manualEvents] at h
    all_goals omega

/-- When the capture parses to usable rows, the manual tier is never
entered. -/
theorem process_link_no_manual_on_success (link : LinkObj)
    (o : ProcessOracle) (k : Nat) (url html2 : String)
    (hu : urlOf link = some url) (hc : o.capture = .ok html2)
    (hp : pyTruthyList
      (parse_html_to_records html2 (some url) o.parseEnv).1 = true) :
    Ev.tierManual k ∉ (process_link link o).2 := by
  intro h
  unfold process_link at h
  rw [hu, hc] at h
  repeat' split at h
  all_goals simp_all [List.mem_append, parse_trace_no_manual]

/-- Claim C4: the extraction tiers run in strict order, each tier
attempted only when the previous yielded no usable rows (the AI tier
runs exactly when the structured tier fails); once the AI tier has
been attempted on a capture the structured tier is never retried
automatically on that markup (the trace is exactly structured, debug,
AI, with the structured tier appearing once and the AI tier at most
once); and only the manual tier permits user-controlled retry (its
attempts, up to 3, occur only when the automatic parse yielded no
usable rows or the capture await raised). -/
theorem c4_tier_escalation (html : String) (u : Option String)
    (env : ParseEnv) (link : LinkObj) (o : ProcessOracle) (k : Nat) :
    (parse_html_to_records html u env).2.count Ev.tierStructured = 1 ∧
    (parse_html_to_records html u env).2.count Ev.tierAI ≤ 1 ∧
    ((Ev.tierAI ∈ (parse_html_to_records html u env).2) ↔
       structuredFails env.pd = true) ∧
    (Ev.tierAI ∈ (parse_html_to_records html u env).2 →
       (parse_html_to_records html u env).2
         = [.tierStructured, .debugWrite u html, .tierAI]) ∧
    (Ev.tierManual k ∈ (process_link link o).2 → 1 ≤ k ∧ k ≤ 3) ∧
    (∀ url html2, urlOf link = some url → o.capture = .ok html2 →
       pyTruthyList
           (parse_html_to_records html2 (some url) o.parseEnv).1 = true →
       Ev.tierManual k ∉ (process_link link o).2) := by
  refine ⟨parse_trace_count_structured html u env,
    parse_trace_count_ai_le html u env,
    tierAI_iff_structuredFails html u env, ?_,
    process_link_manual_bound link o k,
    fun url html2 h1 h2 h3 =>
      process_link_no_manual_on_success link o k url html2 h1 h2 h3⟩
  intro hai
  rcases parse_trace_cases html u env with h | h
  · rw [h] at hai; simp at hai
  · exact h

/-- Concrete instance: a failing structured tier escalates to exactly
one AI attempt after the debug write. -/
theorem c4_tier_escalation_witness :
    (parse_html_to_records "<p>x</p>" none
       ⟨.valueError "bad", .resp false [] ""⟩).2
      = [Ev.tierStructured, Ev.debugWrite none "<p>x</p>", Ev.tierAI] := by
  exact (c4_tier_escalation "<p>x</p>" none
    ⟨.valueError "bad", .resp false [] ""⟩ ⟨"", "", none⟩
    ⟨true, false, true, true, .ok "", ⟨.tables [], .resp false [] ""⟩,
     .ok "", false,
     fun _ => ⟨none, .valueError "", .resp false [] "", false, false⟩,
     .ok ""⟩ 1).2.2.2.1 (by simp [parse_html_to_records])

/-- Claim C7: a navigation failure is reported to the operator and
the page is closed; only that link is skipped: process_link returns
failure without awaiting a capture or writing to the sink, the
pipeline does not abort, the queue position is held, and the
post-scrape navigator menu is still offered at that position. -/
theorem c7_navigation_failure_skips_link (links : List LinkObj)
    (current_index : Nat) (o : ProcessOracle) (link : LinkObj) (url : String)
    (hlink : links.getD current_index ⟨"", "", none⟩ = link)
    (hurl : urlOf link = some url) (hnav : o.navOk = false) :
    process_link link o
      = (false, [.pageOpen, .navigate url, .navFailReported, .pageClose]) ∧
    Ev.captureAwait ∉ (process_link link o).2 ∧
    (∀ recs stored, Ev.sinkWrite recs stored ∉ (process_link link o).2) ∧
    main_loop_iter links current_index o
      = (false, [.pageOpen, .navigate url, .navFailReported, .pageClose,
          .menuPrompt current_index]) := by
  have hp : process_link link o
      = (false, [.pageOpen, .navigate url, .navFailReported, .pageClose]) := by
    unfold process_link
    rw [hurl]
    simp [hnav]
  refine ⟨hp, ?_, ?_, ?_⟩
  · rw [hp]; simp
  · intro recs stored; rw [hp]; simp
  · unfold main_loop_iter
    rw [hlink, hp]
    rfl

/-- Concrete instance: a navigation failure still ends in the menu
being offered at the held position. -/
theorem c7_navigation_failure_skips_link_witness :
    main_loop_iter [⟨"id1", "TX", some "https://x.test"⟩] 0
        ⟨false, false, true, true, .ok "", ⟨.tables [], .resp false [] ""⟩,
         .ok "", false,
         fun _ => ⟨none, .valueError "", .resp false [] "", false, false⟩,
         .ok ""⟩
      = (false, [.pageOpen, .navigate "https://x.test", .navFailReported,
          .pageClose, .menuPrompt 0]) := by
  exact (c7_navigation_failure_skips_link [⟨"id1", "TX", some "https://x.test"⟩]
    0 _ ⟨"id1", "TX", some "https://x.test"⟩ "https://x.test"
    rfl rfl rfl).2.2.2

/-- Claim C8: exceptions in the persistence write and in the AI call
are caught and logged, the result is treated as absent, and neither
the link nor the session aborts; a persistence failure does not alter
the already-computed records: the sink is handed exactly the parse
output whatever the mutation outcome, and the link still completes
successfully. -/
theorem c8_remote_failures_nonfatal (link : LinkObj) (o : ProcessOracle)
    (recs : List Record) (m m2 url html : String) (s : SinkOutcome)
    (hurl : urlOf link = some url)
    (hnav : o.navOk = true) (hskip : o.skip = false)
    (hexpose : o.exposeOk = true) (hinject : o.injectOk = true)
    (hcap : o.capture = .ok html)
    (hparse : pyTruthyList
      (parse_html_to_records html (some url) o.parseEnv).1 = true) :
    save_procurement_data_to_convex link recs (.exn m) = none ∧
    parse_with_ai_agent (.exn m2) = none ∧
    parse_html_to_records html (some url) ⟨.valueError m, .exn m2⟩
      = (none, [.tierStructured, .debugWrite (some url) html, .tierAI]) ∧
    (process_link link { o with sink := s }).1 = true ∧
    Ev.sinkWrite ((parse_html_to_records html (some url) o.parseEnv).1.getD [])
        (save_procurement_data_to_convex link
          ((parse_html_to_records html (some url) o.parseEnv).1.getD []) s)
      ∈ (process_link link { o with sink := s }).2 := by
  obtain ⟨nav, sk, ex, inj, cap, penv, snk, mc, mo, ms⟩ := o
  dsimp only at hnav hskip hexpose hinject hcap hparse
  subst hnav hskip hexpose hinject hcap
  refine ⟨rfl, rfl, rfl, ?_, ?_⟩
  · unfold process_link
    rw [hurl]
    simp [hparse]
  · unfold process_link
    rw [hurl]
    simp [hparse, List.mem_append]

/-- Concrete instance: a failing persistence mutation still lets the
link complete. -/
theorem c8_remote_failures_nonfatal_witness :
    (process_link ⟨"id3", "MD", some "https://y.test"⟩
        ⟨true, false, true, true, .ok "<table>t</table>",
         ⟨.tables [⟨["A"], [[Cell.s "1"]]⟩], .resp false [] ""⟩,
         .exn "mutation failed", false,
         fun _ => ⟨none, .valueError "", .resp false [] "", false, false⟩,
         .ok ""⟩).1 = true := by
  exact (c8_remote_failures_nonfatal ⟨"id3", "MD", some "https://y.test"⟩
    ⟨true, false, true, true, .ok "<table>t</table>",
     ⟨.tables [⟨["A"], [[Cell.s "1"]]⟩], .resp false [] ""⟩,
     .exn "boom", false,
     fun _ => ⟨none, .valueError "", .resp false [] "", false, false⟩,
     .ok ""⟩ [] "m" "m2" "https://y.test" "<table>t</table>"
    (.exn "mutation failed") rfl rfl rfl rfl rfl rfl rfl).2.2.2.1

/-- Claim C10: a link whose procurementLink is missing or empty makes
process_link fail immediately, with no page opened, no capture
awaited and no sink write, and the navigator menu is still offered
afterward at the unchanged position. -/
theorem c10_missing_url_early_failure (links : List LinkObj)
    (current_index : Nat) (o : ProcessOracle) (link : LinkObj)
    (hlink : links.getD current_index ⟨"", "", none⟩ = link)
    (hurl : urlOf link = none) :
    process_link link o = (false, []) ∧
    Ev.pageOpen ∉ (process_link link o).2 ∧
    Ev.captureAwait ∉ (process_link link o).2 ∧
    (∀ recs stored, Ev.sinkWrite recs stored ∉ (process_link link o).2) ∧
    main_loop_iter links current_index o
      = (false, [.menuPrompt current_index]) := by
  have hp : process_link link o = (false, []) := by
    unfold process_link
    rw [hurl]
  refine ⟨hp, ?_, ?_, ?_, ?_⟩
  · rw [hp]; simp
  · rw [hp]; simp
  · intro recs stored; rw [hp]; simp
  · unfold main_loop_iter
    rw [hlink, hp]
    rfl

/-- Concrete instance: an empty URL fails before any page opens. -/
theorem c10_missing_url_early_failure_witness :
    process_link ⟨"id2", "VA", some ""⟩
        ⟨true, false, true, true, .ok "<table></table>",
         ⟨.tables [], .resp false [] ""⟩, .ok "", false,
         fun _ => ⟨none, .valueError "", .resp false [] "", false, false⟩,
         .ok ""⟩ = (false, []) := by
  exact (c10_missing_url_early_failure [⟨"id2", "VA", some ""⟩] 0 _
    ⟨"id2", "VA", some ""⟩ rfl rfl).1

/-! ## In-page element selector, hotkey variant (scraper.py lines 80
to 213)

The injected script keeps a lastElement reference updated on pointer
over, plus a keydown handler for Ctrl+Alt+S.  The page state and the
handler effects are modelled directly; targets inside the banner,
which the mouseover handler ignores, never become lastElement and so
are outside the state. -/

/-- A DOM element as the selector sees it: its serialized markup and
the serialized markup of its nearest enclosing table when one exists
(target.closest on table). -/
structure Elem where
  outerHTML : String
  closestTable : Option String
deriving DecidableEq, Repr

/-- tableObj: the closest table ancestor, falling back to the literal
target, serialized. -/
def captureMarkup (e : Elem) : String :=
  e.closestTable.getD e.outerHTML

/-- The in-page selector state: the isActive flag, the element
currently highlighted, and the listener registrations. -/
structure SelectorState where
  isActive : Bool
  lastElement : Option Elem
  mouseoverInstalled : Bool
  keydownInstalled : Bool
deriving DecidableEq, Repr

/-- The freshly injected selector (scraper.py lines 206 to 207). -/
def selectorInit : SelectorState :=
  { isActive := true, lastElement := none,
    mouseoverInstalled := true, keydownInstalled := true }

/-- A keyboard event as the handler reads it. -/
structure KeyEvent where
  ctrlKey : Bool
  altKey : Bool
  key : String
deriving DecidableEq, Repr

/-- The observable actions of the in-page handlers. -/
inductive JsEffect where
  | bannerFlashWarning
  | bannerRevertScheduled
  | bannerSuccess
  | bannerRemoveScheduled
  | resolveCapture (markup : String)
deriving DecidableEq, Repr

/-- ASCII lower-casing of one character, as toLowerCase acts on the
key names involved here. -/
def lowerChar (c : Char) : Char :=
  if 'A' ≤ c ∧ c ≤ 'Z' then Char.ofNat (c.toNat + 32) else c

/-- event.key.toLowerCase() compared with the letter s. -/
def keyMatchesS (key : String) : Bool :=
  key.toList.map lowerChar = ['s']

/-- The mouseover handler (scraper.py lines 151 to 158): while the
selector is active, the hovered element becomes the highlighted
one. -/
def mouseOverHandler (st : SelectorState) (target : Elem) : SelectorState :=
  if st.isActive = false then st
  else { st with lastElement := some target }

/-- The keydown handler (scraper.py lines 161 to 204): on Ctrl+Alt+S
with no highlighted element, flash the banner red, schedule its
revert, and keep everything installed and active; with a highlighted
element, deactivate, remove both listeners, show the success banner,
schedule its removal, and send the markup of the nearest table
ancestor (or the element itself) to the host hook. -/
def keydownHandler (st : SelectorState) (e : KeyEvent) :
    SelectorState × List JsEffect :=
  if st.isActive = false then (st, [])
  else if e.ctrlKey = true ∧ e.altKey = true ∧ keyMatchesS e.key = true then
    match st.lastElement with
    | none => (st, [.bannerFlashWarning, .bannerRevertScheduled])
    | some target =>
      ({ isActive := false, lastElement := st.lastElement,
         mouseoverInstalled := false, keydownInstalled := false },
       [.bannerSuccess, .bannerRemoveScheduled,
        .resolveCapture (captureMarkup target)])
  else (st, [])

/-- Claim C9: in the hotkey variant, a Ctrl+Alt+S with no element
highlighted gives transient visual feedback (the banner flashes with
its revert scheduled) and never resolves the capture: the host hook
is not invoked, the listeners stay installed, the selector stays
active, and the protocol keeps waiting, so a later hover followed by
the trigger still resolves the capture. -/
theorem c9_hotkey_no_highlight_keeps_waiting (st : SelectorState)
    (e : KeyEvent) (target : Elem)
    (hactive : st.isActive = true) (hlast : st.lastElement = none)
    (hmi : st.mouseoverInstalled = true) (hki : st.keydownInstalled = true)
    (hctrl : e.ctrlKey = true) (halt : e.altKey = true)
    (hkey : keyMatchesS e.key = true) :
    keydownHandler st e
      = (st, [.bannerFlashWarning, .bannerRevertScheduled]) ∧
    (∀ m, JsEffect.resolveCapture m ∉ (keydownHandler st e).2) ∧
    (keydownHandler st e).1.isActive = true ∧
    (keydownHandler st e).1.mouseoverInstalled = true ∧
    (keydownHandler st e).1.keydownInstalled = true ∧
    JsEffect.resolveCapture (captureMarkup target) ∈
      (keydownHandler (mouseOverHandler st target) e).2 := by
  have hp : keydownHandler st e
      = (st, [.bannerFlashWarning, .bannerRevertScheduled]) := by
    unfold keydownHandler
    rw [hlast]
    simp [hactive, hctrl, halt, hkey]
  refine ⟨hp, ?_, ?_, ?_, ?_, ?_⟩
  · intro m; rw [hp]; simp
  · rw [hp]; exact hactive
  · rw [hp]; exact hmi
  · rw [hp]; exact hki
  · have hm : mouseOverHandler st target
        = { st with lastElement := some target } := by
      unfold mouseOverHandler
      simp [hactive]
    rw [hm]
    unfold keydownHandler
    simp [hactive, hctrl, halt, hkey]

/-- Concrete instance: an uppercase S trigger with nothing
highlighted flashes and keeps waiting. -/
theorem c9_hotkey_no_highlight_keeps_waiting_witness :
    keydownHandler selectorInit ⟨true, true, "S"⟩
      = (selectorInit,
         [JsEffect.bannerFlashWarning, JsEffect.bannerRevertScheduled]) := by
  exact (c9_hotkey_no_highlight_keeps_waiting selectorInit ⟨true, true, "S"⟩
    ⟨"<td>v</td>", some "<table>m</table>"⟩
    rfl rfl rfl rfl rfl rfl rfl).1

end Scraper
